import Mathlib

/-!
Verification of the data-loading core of "The Price of Living VI".

The definitions below are a shallow embedding of the JavaScript modules
`src/modules/data-loader.js` and `src/modules/country-comparison.js`.
JavaScript numbers are modelled as `ℚ` (all the arithmetic the claims
touch is exact decimal arithmetic), CSV cell parsing results are
modelled as `Option` values (`none` stands for `NaN`/missing/sentinel
cells such as `"x"`), JavaScript `null`/`undefined` is `Option.none`,
and plain JavaScript objects used as string- or year-keyed maps are
modelled as association lists.
-/

namespace PL

/-- Shallow model of one `{year, value}` point of an inflation (or income)
time series, as produced by `processInflationData`. -/
structure YearValue where
  year : ℤ
  value : ℚ
deriving DecidableEq, Repr

/-- Shallow model of one named category series
(`categoriesData[category] = {name, values}` in `data-loader.js`). -/
structure SeriesCategory where
  name : String
  values : List YearValue
deriving DecidableEq, Repr

/-- Shallow model of the dataset returned by `processInflationData`:
`{ categories: [...], years: [...] }`. -/
structure InflationData where
  categories : List SeriesCategory
  years : List ℤ
deriving DecidableEq, Repr

/-- Shallow model of one entry of the `countryMappings` table value:
`{ pordata, eurostat, display }`. -/
structure CountryEntry where
  pordata : String
  eurostat : String
  display : String
deriving DecidableEq, Repr

set_option maxHeartbeats 1000000 in
/-- The `countryMappings` object of `data-loader.js`, as an association
list from key to entry (keys are pairwise distinct in the source, so
`List.find?` agrees with JavaScript property lookup). -/
def countryMappings : List (String × CountryEntry) :=
  [ ("Albânia", ⟨"Albânia", "Albania", "Albânia"⟩),
    ("Albania", ⟨"Albânia", "Albania", "Albânia"⟩),
    ("Alemanha", ⟨"Alemanha", "Germany", "Alemanha"⟩),
    ("Germany", ⟨"Alemanha", "Germany", "Alemanha"⟩),
    ("Áustria", ⟨"Áustria", "Austria", "Áustria"⟩),
    ("Austria", ⟨"Áustria", "Austria", "Áustria"⟩),
    ("Bélgica", ⟨"Bélgica", "Belgium", "Bélgica"⟩),
    ("Belgium", ⟨"Bélgica", "Belgium", "Bélgica"⟩),
    ("Bulgária", ⟨"Bulgária", "Bulgaria", "Bulgária"⟩),
    ("Bulgaria", ⟨"Bulgária", "Bulgaria", "Bulgária"⟩),
    ("Chipre", ⟨"Chipre", "Cyprus", "Chipre"⟩),
    ("Cyprus", ⟨"Chipre", "Cyprus", "Chipre"⟩),
    ("Croácia", ⟨"Croácia", "Croatia", "Croácia"⟩),
    ("Croatia", ⟨"Croácia", "Croatia", "Croácia"⟩),
    ("República Checa", ⟨"República Checa", "Czechia", "República Checa"⟩),
    ("Czechia", ⟨"República Checa", "Czechia", "República Checa"⟩),
    ("Dinamarca", ⟨"Dinamarca", "Denmark", "Dinamarca"⟩),
    ("Denmark", ⟨"Dinamarca", "Denmark", "Dinamarca"⟩),
    ("Eslováquia", ⟨"Eslováquia", "Slovakia", "Eslováquia"⟩),
    ("Slovakia", ⟨"Eslováquia", "Slovakia", "Eslováquia"⟩),
    ("Eslovénia", ⟨"Eslovénia", "Slovenia", "Eslovénia"⟩),
    ("Slovenia", ⟨"Eslovénia", "Slovenia", "Eslovénia"⟩),
    ("Espanha", ⟨"Espanha", "Spain", "Espanha"⟩),
    ("Spain", ⟨"Espanha", "Spain", "Espanha"⟩),
    ("Estados Unidos", ⟨"Estados Unidos", "United States", "Estados Unidos"⟩),
    ("United States", ⟨"Estados Unidos", "United States", "Estados Unidos"⟩),
    ("Estónia", ⟨"Estónia", "Estonia", "Estónia"⟩),
    ("Estonia", ⟨"Estónia", "Estonia", "Estónia"⟩),
    ("Finlândia", ⟨"Finlândia", "Finland", "Finlândia"⟩),
    ("Finland", ⟨"Finlândia", "Finland", "Finlândia"⟩),
    ("França", ⟨"França", "France", "França"⟩),
    ("France", ⟨"França", "France", "França"⟩),
    ("Grécia", ⟨"Grécia", "Greece", "Grécia"⟩),
    ("Greece", ⟨"Grécia", "Greece", "Grécia"⟩),
    ("Hungria", ⟨"Hungria", "Hungary", "Hungria"⟩),
    ("Hungary", ⟨"Hungria", "Hungary", "Hungria"⟩),
    ("Islândia", ⟨"Islândia", "Iceland", "Islândia"⟩),
    ("Iceland", ⟨"Islândia", "Iceland", "Islândia"⟩),
    ("Irlanda", ⟨"Irlanda", "Ireland", "Irlanda"⟩),
    ("Ireland", ⟨"Irlanda", "Ireland", "Irlanda"⟩),
    ("Itália", ⟨"Itália", "Italy", "Itália"⟩),
    ("Italy", ⟨"Itália", "Italy", "Itália"⟩),
    ("Letónia", ⟨"Letónia", "Latvia", "Letónia"⟩),
    ("Latvia", ⟨"Letónia", "Latvia", "Letónia"⟩),
    ("Lituânia", ⟨"Lituânia", "Lithuania", "Lituânia"⟩),
    ("Lithuania", ⟨"Lituânia", "Lithuania", "Lituânia"⟩),
    ("Luxemburgo", ⟨"Luxemburgo", "Luxembourg", "Luxemburgo"⟩),
    ("Luxembourg", ⟨"Luxemburgo", "Luxembourg", "Luxemburgo"⟩),
    ("Macedónia do Norte", ⟨"Macedónia do Norte", "North Macedonia", "Macedónia do Norte"⟩),
    ("North Macedonia", ⟨"Macedónia do Norte", "North Macedonia", "Macedónia do Norte"⟩),
    ("Malta", ⟨"Malta", "Malta", "Malta"⟩),
    ("Moldávia", ⟨"Moldávia", "Moldova", "Moldávia"⟩),
    ("Moldova", ⟨"Moldávia", "Moldova", "Moldávia"⟩),
    ("Montenegro", ⟨"Montenegro", "Montenegro", "Montenegro"⟩),
    ("Noruega", ⟨"Noruega", "Norway", "Noruega"⟩),
    ("Norway", ⟨"Noruega", "Norway", "Noruega"⟩),
    ("Países Baixos", ⟨"Países Baixos", "Netherlands", "Países Baixos"⟩),
    ("Netherlands", ⟨"Países Baixos", "Netherlands", "Países Baixos"⟩),
    ("Polónia", ⟨"Polónia", "Poland", "Polónia"⟩),
    ("Poland", ⟨"Polónia", "Poland", "Polónia"⟩),
    ("Portugal", ⟨"Portugal", "Portugal", "Portugal"⟩),
    ("Reino Unido", ⟨"Reino Unido", "United Kingdom", "Reino Unido"⟩),
    ("United Kingdom", ⟨"Reino Unido", "United Kingdom", "Reino Unido"⟩),
    ("Roménia", ⟨"Roménia", "Romania", "Roménia"⟩),
    ("Romania", ⟨"Roménia", "Romania", "Roménia"⟩),
    ("Sérvia", ⟨"Sérvia", "Serbia", "Sérvia"⟩),
    ("Serbia", ⟨"Sérvia", "Serbia", "Sérvia"⟩),
    ("Síria", ⟨"Síria", "Syria", "Síria"⟩),
    ("Syria", ⟨"Síria", "Syria", "Síria"⟩),
    ("Suécia", ⟨"Suécia", "Sweden", "Suécia"⟩),
    ("Sweden", ⟨"Suécia", "Sweden", "Suécia"⟩),
    ("Suíça", ⟨"Suíça", "Switzerland", "Suíça"⟩),
    ("Switzerland", ⟨"Suíça", "Switzerland", "Suíça"⟩),
    ("Turquia", ⟨"Turquia", "Turkey", "Turquia"⟩),
    ("Turkey", ⟨"Turquia", "Turkey", "Turquia"⟩),
    ("Türkiye", ⟨"Turquia", "Türkiye", "Turquia"⟩),
    ("Ucrânia", ⟨"Ucrânia", "Ukraine", "Ucrânia"⟩),
    ("Ukraine", ⟨"Ucrânia", "Ukraine", "Ucrânia"⟩) ]

/-- JavaScript property lookup `countryMappings[country]`. -/
def lookupMapping (country : String) : Option CountryEntry :=
  (List.find? (fun e => e.1 = country) countryMappings).map (fun e => e.2)

/-- The function `getPordataCountryName` of `data-loader.js`.
A `none` argument models `null`/`undefined`; the string `""` is the
other falsy string value.  `countryMappings[country]?.pordata || country`
is modelled by falling back to `country` when the lookup misses or the
mapped field is the falsy string `""`. -/
def getPordataCountryName (country : Option String) : Option String :=
  match country with
  | none => none
  | some c =>
    if c = "" then none
    else
      match lookupMapping c with
      | some m => if m.pordata = "" then some c else some m.pordata
      | none => some c

/-- The function `getEurostatCountryName` of `data-loader.js`. -/
def getEurostatCountryName (country : Option String) : Option String :=
  match country with
  | none => none
  | some c =>
    if c = "" then none
    else
      match lookupMapping c with
      | some m => if m.eurostat = "" then some c else some m.eurostat
      | none => some c

/-- The function `getDisplayCountryName` of `data-loader.js`. -/
def getDisplayCountryName (country : Option String) : Option String :=
  match country with
  | none => none
  | some c =>
    if c = "" then none
    else
      match lookupMapping c with
      | some m => if m.display = "" then some c else some m.display
      | none => some c

/-- The list of loop indices `y = a, a+1, ..., b` of the JavaScript
`for (let y = a; y <= b; y++)` loops in `calculateRealWage`
(empty when `b < a`). -/
def yearsFromTo (a b : ℤ) : List ℤ :=
  (List.range (b + 1 - a).toNat).map (fun i => a + (i : ℤ))

/-- One iteration of the accumulation loops of `calculateRealWage`:
`if (inflationRate) cumulativeInflation *= (1 + inflationRate.value / 100)`,
where `inflationRate = totalInflation.values.find(v => v.year === y)`. -/
def stepFactor (vals : List YearValue) (acc : ℚ) (y : ℤ) : ℚ :=
  match vals.find? (fun v => v.year = y) with
  | some r => acc * (1 + r.value / 100)
  | none => acc

/-- The function `calculateRealWage` of `data-loader.js` (the temporal
compounding engine, called `adjustToBaseYear` in the specification).
Returns `none` exactly where the JavaScript function returns `null`. -/
def calculateRealWage (nominalWage : ℚ) (inflationData : InflationData)
    (year : ℤ) (baseYear : ℤ) : Option ℚ :=
  if inflationData.categories.isEmpty then none
  else
    match inflationData.categories.find? (fun c => c.name = "Total") with
    | none => none
    | some totalInflation =>
      if baseYear < year then
        some (nominalWage /
          ((yearsFromTo (baseYear + 1) year).foldl (stepFactor totalInflation.values) 1))
      else if year < baseYear then
        some (nominalWage *
          ((yearsFromTo (year + 1) baseYear).foldl (stepFactor totalInflation.values) 1))
      else
        some nominalWage

/-- Per-year factor of the compounding chain: `1 + rate(y)/100` when year
`y` has an observed rate, and exactly `1` when it has none. -/
def yearFactor (vals : List YearValue) (y : ℤ) : ℚ :=
  match vals.find? (fun v => v.year = y) with
  | some r => 1 + r.value / 100
  | none => 1

/-- Cumulative compounding factor over the inclusive year range `[a, b]`,
each year contributing `yearFactor`. -/
def cumulativeFactor (vals : List YearValue) (a b : ℤ) : ℚ :=
  ((yearsFromTo a b).map (yearFactor vals)).prod

theorem foldl_stepFactor (vals : List YearValue) (l : List ℤ) (init : ℚ) :
    l.foldl (stepFactor vals) init = init * (l.map (yearFactor vals)).prod := by
  induction l generalizing init with
  | nil => simp
  | cons y l ih =>
    simp only [List.foldl_cons, List.map_cons, List.prod_cons, ih]
    unfold stepFactor yearFactor
    cases vals.find? (fun v => v.year = y) with
    | none => ring
    | some r => ring

theorem find?_ne_nil {α : Type} {p : α → Bool} {l : List α} {a : α}
    (h : l.find? p = some a) : l.isEmpty = false := by
  cases l with
  | nil => simp at h
  | cons x xs => simp [List.isEmpty]

theorem calculateRealWage_gt (nominal : ℚ) (d : InflationData) (year baseYear : ℤ)
    (t : SeriesCategory) (hy : baseYear < year)
    (ht : d.categories.find? (fun c => c.name = "Total") = some t) :
    calculateRealWage nominal d year baseYear
      = some (nominal / cumulativeFactor t.values (baseYear + 1) year) := by
  have hne := find?_ne_nil ht
  simp only [calculateRealWage, hne, Bool.false_eq_true, if_false, ht, if_pos hy,
    foldl_stepFactor, one_mul, cumulativeFactor]

theorem calculateRealWage_lt (nominal : ℚ) (d : InflationData) (year baseYear : ℤ)
    (t : SeriesCategory) (hy : year < baseYear)
    (ht : d.categories.find? (fun c => c.name = "Total") = some t) :
    calculateRealWage nominal d year baseYear
      = some (nominal * cumulativeFactor t.values (year + 1) baseYear) := by
  have hne := find?_ne_nil ht
  have hy' : ¬ baseYear < year := not_lt.mpr (le_of_lt hy)
  simp only [calculateRealWage, hne, Bool.false_eq_true, if_false, ht, if_neg hy',
    if_pos hy, foldl_stepFactor, one_mul, cumulativeFactor]

/-- Inflation series of the specification scenario
`{2012: 2.4, 2013: 0.3}` (the 2011 observation is absent). -/
def scenarioSeries : List YearValue := [⟨2012, 24/10⟩, ⟨2013, 3/10⟩]

/-- Inflation dataset of the specification scenario, with the series
above as its "Total" category. -/
def scenarioData : InflationData := ⟨[⟨"Total", scenarioSeries⟩], [2012, 2013]⟩

/-- C1: for `year > baseYear`, `calculateRealWage` returns the nominal
value divided by the product of `1 + rate(y)/100` over the years
`baseYear+1 .. year`, where a year without an observed rate contributes
the factor `1` exactly. -/
theorem c1_deflate_forward (nominal : ℚ) (d : InflationData) (year baseYear : ℤ)
    (t : SeriesCategory) (hy : baseYear < year)
    (ht : d.categories.find? (fun c => c.name = "Total") = some t) :
    calculateRealWage nominal d year baseYear
      = some (nominal / cumulativeFactor t.values (baseYear + 1) year)
    ∧ (∀ y : ℤ, t.values.find? (fun v => v.year = y) = none → yearFactor t.values y = 1) := by
  refine ⟨calculateRealWage_gt nominal d year baseYear t hy ht, ?_⟩
  intro y h
  unfold yearFactor
  rw [h]

/-- C1 witness: the specification scenario — nominal 500 adjusted from
base 2012 to 2013 over `{2012: 2.4, 2013: 0.3}` gives `500 / 1.003`. -/
theorem c1_deflate_forward_witness :
    (2012:ℤ) < 2013
    ∧ scenarioData.categories.find? (fun c => c.name = "Total")
        = some ⟨"Total", scenarioSeries⟩
    ∧ calculateRealWage 500 scenarioData 2013 2012
        = some (500 / cumulativeFactor scenarioSeries (2012 + 1) 2013)
    ∧ cumulativeFactor scenarioSeries (2012 + 1) 2013 = 1003/1000
    ∧ (500 : ℚ) / (1003/1000) = 500000/1003 := by
  have hrange : yearsFromTo (2012 + 1) 2013 = [2013] := by decide
  have hfac : cumulativeFactor scenarioSeries (2012 + 1) 2013 = 1003/1000 := by
    simp only [cumulativeFactor, hrange, List.map_cons, List.map_nil, List.prod_cons,
      List.prod_nil, yearFactor, scenarioSeries]
    norm_num
  refine ⟨by norm_num, rfl,
    (c1_deflate_forward 500 scenarioData 2013 2012 ⟨"Total", scenarioSeries⟩
      (by norm_num) rfl).1, hfac, by norm_num⟩

/-- C4: with a "Total" category present, adjusting a value to its own
base year returns the nominal value unchanged. -/
theorem c4_identity (nominal : ℚ) (d : InflationData) (baseYear : ℤ)
    (t : SeriesCategory)
    (ht : d.categories.find? (fun c => c.name = "Total") = some t) :
    calculateRealWage nominal d baseYear baseYear = some nominal := by
  have hne := find?_ne_nil ht
  simp [calculateRealWage, hne, ht]

/-- C4 witness: the scenario dataset at year 2012 = base year 2012. -/
theorem c4_identity_witness :
    scenarioData.categories.find? (fun c => c.name = "Total")
        = some ⟨"Total", scenarioSeries⟩
    ∧ calculateRealWage 500 scenarioData 2012 2012 = some 500 :=
  ⟨rfl, c4_identity 500 scenarioData 2012 ⟨"Total", scenarioSeries⟩ rfl⟩

/-- C7: if the dataset has no category named "Total",
`calculateRealWage` returns `null` for every nominal value, year and
base year (the function is total, so it never throws). -/
theorem c7_missing_total (nominal : ℚ) (d : InflationData) (year baseYear : ℤ)
    (h : d.categories.find? (fun c => c.name = "Total") = none) :
    calculateRealWage nominal d year baseYear = none := by
  simp [calculateRealWage, h]

/-- Dataset with categories but no "Total" aggregate. -/
def noTotalData : InflationData := ⟨[⟨"Alimentação", [⟨2013, 2⟩]⟩], [2013]⟩

/-- C7 witness: a dataset whose only category is "Alimentação" yields
`null`, both for `year ≠ baseYear` and for `year = baseYear`. -/
theorem c7_missing_total_witness :
    noTotalData.categories.find? (fun c => c.name = "Total") = none
    ∧ calculateRealWage 500 noTotalData 2013 2012 = none
    ∧ calculateRealWage 500 noTotalData 2012 2012 = none :=
  ⟨rfl, c7_missing_total 500 noTotalData 2013 2012 rfl,
    c7_missing_total 500 noTotalData 2012 2012 rfl⟩

/-- Dataset whose "Total" series has an observed rate of exactly −100 %
in 2013, which makes the cumulative factor zero. -/
def minusHundredData : InflationData := ⟨[⟨"Total", [⟨2013, -100⟩]⟩], [2013]⟩

/-- C5 counterexample: with an observed rate of −100 % the claimed
round-trip law fails as stated.  Adjusting 500 forward from base 2012 to
2013 divides by the cumulative factor 0 (in `ℚ`, `500 / 0 = 0`; in the
JavaScript source the same input produces `Infinity` and then `NaN`),
and adjusting back multiplies by 0, so the round trip returns 0, not
500. -/
theorem c5_round_trip_counterexample :
    ((calculateRealWage 500 minusHundredData 2013 2012).bind
        (fun r => calculateRealWage r minusHundredData 2012 2013)) = some 0
    ∧ ((calculateRealWage 500 minusHundredData 2013 2012).bind
        (fun r => calculateRealWage r minusHundredData 2012 2013)) ≠ some 500 := by
  have hrange : yearsFromTo (2012 + 1) 2013 = [2013] := by decide
  have hfac : cumulativeFactor [(⟨2013, -100⟩ : YearValue)] (2012 + 1) 2013 = 0 := by
    simp only [cumulativeFactor, hrange, List.map_cons, List.map_nil, List.prod_cons,
      List.prod_nil, yearFactor]
    norm_num
  have h1 : calculateRealWage 500 minusHundredData 2013 2012 = some 0 := by
    rw [calculateRealWage_gt 500 minusHundredData 2013 2012 ⟨"Total", [⟨2013, -100⟩]⟩
      (by norm_num) rfl, hfac]
    norm_num
  have h2 : calculateRealWage 0 minusHundredData 2012 2013 = some 0 := by
    rw [calculateRealWage_lt 0 minusHundredData 2012 2013 ⟨"Total", [⟨2013, -100⟩]⟩
      (by norm_num) rfl]
    norm_num
  rw [h1, Option.some_bind, h2]
  exact ⟨rfl, by simp⟩

/-- C5 (amended): the round trip forward from base `b` to year `Y` and
back is the identity whenever the cumulative factor over the span is
nonzero (i.e. no year in the span has an observed rate of exactly
−100 %); over `ℚ` the law is exact. -/
theorem c5_round_trip (nominal : ℚ) (d : InflationData) (Y b : ℤ)
    (t : SeriesCategory) (hy : b < Y)
    (ht : d.categories.find? (fun c => c.name = "Total") = some t)
    (hP : cumulativeFactor t.values (b + 1) Y ≠ 0) :
    (calculateRealWage nominal d Y b).bind
        (fun r => calculateRealWage r d b Y) = some nominal := by
  rw [calculateRealWage_gt nominal d Y b t hy ht, Option.some_bind,
    calculateRealWage_lt (nominal / cumulativeFactor t.values (b + 1) Y) d b Y t hy ht,
    div_mul_cancel₀ nominal hP]

/-- C5 witness: the scenario dataset round-trips 500 between base 2012
and year 2013 exactly. -/
theorem c5_round_trip_witness :
    (2012:ℤ) < 2013
    ∧ cumulativeFactor scenarioSeries (2012 + 1) 2013 ≠ 0
    ∧ (calculateRealWage 500 scenarioData 2013 2012).bind
        (fun r => calculateRealWage r scenarioData 2012 2013) = some 500 := by
  have hrange : yearsFromTo (2012 + 1) 2013 = [2013] := by decide
  have hP : cumulativeFactor scenarioSeries (2012 + 1) 2013 ≠ 0 := by
    simp only [cumulativeFactor, hrange, List.map_cons, List.map_nil, List.prod_cons,
      List.prod_nil, yearFactor, scenarioSeries]
    norm_num
  exact ⟨by norm_num, hP,
    c5_round_trip 500 scenarioData 2013 2012 ⟨"Total", scenarioSeries⟩
      (by norm_num) rfl hP⟩

set_option maxHeartbeats 1000000 in
theorem pordata_closed :
    ∀ e ∈ countryMappings, e.2.pordata ≠ ""
      ∧ (List.find? (fun x => x.1 = e.2.pordata) countryMappings).map
          (fun x => x.2.pordata) = some e.2.pordata := by
  decide

/-- C8: the country name resolver never fails — `null`/empty input gives
the `null` sentinel, an unknown name resolves to itself, and resolution
to the Pordata convention is idempotent. -/
theorem c8_resolution_laws :
    getPordataCountryName none = none
    ∧ getPordataCountryName (some "") = none
    ∧ (∀ c : String, c ≠ "" → lookupMapping c = none →
        getPordataCountryName (some c) = some c)
    ∧ ∀ x : Option String,
        getPordataCountryName (getPordataCountryName x) = getPordataCountryName x := by
  refine ⟨rfl, rfl, ?_, ?_⟩
  · intro c hc hl
    simp [getPordataCountryName, hc, hl]
  · intro x
    match x with
    | none => rfl
    | some c =>
      by_cases hc : c = ""
      · subst hc; rfl
      · cases hl : lookupMapping c with
        | none => simp [getPordataCountryName, hc, hl]
        | some m =>
          have hl' := hl
          unfold lookupMapping at hl'
          obtain ⟨e, hfind, he2⟩ := Option.map_eq_some'.mp hl'
          subst he2
          obtain ⟨hne, hclosed⟩ := pordata_closed e (List.mem_of_find?_eq_some hfind)
          have hinner : getPordataCountryName (some c) = some e.2.pordata := by
            simp [getPordataCountryName, hc, hl, hne]
          rw [hinner]
          obtain ⟨e', hfind', hp'⟩ := Option.map_eq_some'.mp hclosed
          have hne' : e'.2.pordata ≠ "" := by rw [hp']; exact hne
          simp [getPordataCountryName, hne, lookupMapping, hfind', hne', hp']

/-- C8 witness: unknown names ("Atlantis") resolve to themselves,
resolution of "Spain" is idempotent and lands on "Espanha". -/
theorem c8_resolution_laws_witness :
    ("Atlantis" : String) ≠ ""
    ∧ lookupMapping "Atlantis" = none
    ∧ getPordataCountryName (some "Atlantis") = some "Atlantis"
    ∧ getPordataCountryName (getPordataCountryName (some "Spain"))
        = getPordataCountryName (some "Spain")
    ∧ getPordataCountryName (some "Spain") = some "Espanha" :=
  ⟨by decide, by decide,
    c8_resolution_laws.2.2.1 "Atlantis" (by decide) (by decide),
    c8_resolution_laws.2.2.2 (some "Spain"), by decide⟩

/-- Shallow model of one raw CSV row as read by `processInflationData`.
Numeric cells are modelled by their parse result (`none` = `NaN`),
string cells by `""` for an absent/empty cell. -/
structure RawRow where
  ano : Option ℤ
  countryEurope : String
  countryRegion : String
  filtro1 : String
  valor : Option ℚ
deriving DecidableEq, Repr

/-- The row's country column:
`d["02. Nome País (Europa)"] || d["02. Nome Região (Portugal)"]`. -/
def effectiveCountry (d : RawRow) : String :=
  if d.countryEurope ≠ "" then d.countryEurope else d.countryRegion

/-- The country-filter skip condition of `processInflationData`:
`normalizedCountry && countryColumn && countryColumn !== normalizedCountry`. -/
def rowSkipped (normalizedCountry : Option String) (d : RawRow) : Bool :=
  match normalizedCountry with
  | none => false
  | some n => decide (n ≠ "" ∧ effectiveCountry d ≠ "" ∧ effectiveCountry d ≠ n)

/-- Row validation of `processInflationData`:
`!isNaN(year) && category && !isNaN(value)`. -/
def validEntry (d : RawRow) : Option (ℤ × String × ℚ) :=
  match d.ano, d.valor with
  | some y, some v => if d.filtro1 = "" then none else some (y, d.filtro1, v)
  | _, _ => none

/-- The function `processInflationData` of `data-loader.js` (row filter
and grouper).  Both JavaScript passes validate rows with the same
predicate, so the per-category value lists are the validated rows of
that category in row order, sorted by year as a post-step; the year and
category sets are sorted ascending. -/
def processInflationData (data : List RawRow) (country : Option String) : InflationData :=
  let normalizedCountry := getPordataCountryName country
  let kept := data.filter (fun d => ! rowSkipped normalizedCountry d)
  let valid := kept.filterMap validEntry
  let sortedYears := ((valid.map (fun x => x.1)).dedup).insertionSort (fun x y => x ≤ y)
  let sortedCategories :=
    ((valid.map (fun x => x.2.1)).dedup).insertionSort (fun x y => x ≤ y)
  let categories := sortedCategories.map (fun n =>
    SeriesCategory.mk n
      (((valid.filter (fun x => x.2.1 = n)).map
          (fun x => YearValue.mk x.1 x.2.2)).insertionSort (fun u v => u.year ≤ v.year)))
  ⟨categories, sortedYears⟩

/-- C9: filtering to a country that matches no row yields the explicit
empty dataset — zero categories and an empty years set — not an error. -/
theorem c9_empty_country_filter (data : List RawRow) (country : Option String)
    (n : String) (hn : getPordataCountryName country = some n) (hne : n ≠ "")
    (h : ∀ d ∈ data, effectiveCountry d ≠ "" ∧ effectiveCountry d ≠ n) :
    processInflationData data country = ⟨[], []⟩ := by
  have hkept : data.filter (fun d => ! rowSkipped (getPordataCountryName country) d) = [] := by
    rw [List.filter_eq_nil_iff]
    intro d hd
    obtain ⟨h1, h2⟩ := h d hd
    simp [rowSkipped, hn, hne, h1, h2]
  simp [processInflationData, hkept]

/-- C9 witness: a single French row filtered to "Espanha". -/
theorem c9_empty_country_filter_witness :
    getPordataCountryName (some "Espanha") = some "Espanha"
    ∧ ("Espanha" : String) ≠ ""
    ∧ (∀ d ∈ [RawRow.mk (some 2020) "França" "" "Total" (some 2)],
        effectiveCountry d ≠ "" ∧ effectiveCountry d ≠ "Espanha")
    ∧ processInflationData [RawRow.mk (some 2020) "França" "" "Total" (some 2)]
        (some "Espanha") = ⟨[], []⟩ :=
  ⟨by decide, by decide, by decide,
    c9_empty_country_filter [RawRow.mk (some 2020) "França" "" "Total" (some 2)]
      (some "Espanha") "Espanha" (by decide) (by decide) (by decide)⟩

/-- Shallow model of one `wageTimeline` entry of a comparison snapshot as
read by the alignment engine of `country-comparison.js`. -/
structure TimelineEntry where
  year : ℤ
  nominal : Option ℚ
deriving DecidableEq, Repr

/-- Shallow model of the `wage` field of a comparison snapshot as read by
`computeAlignedMetrics` (`snapshot.wage.year`, `snapshot.wage.nominal`). -/
structure WageLatest where
  year : Option ℤ
  nominal : Option ℚ
deriving DecidableEq, Repr

/-- Shallow model of a country snapshot as consumed by the alignment
engine (`recomputeAlignment` / `findSharedBaseYear` /
`computeAlignedMetrics`). -/
structure AlignSnapshot where
  wage : Option WageLatest
  wageTimeline : List TimelineEntry
  inflationSeries : List YearValue
deriving DecidableEq, Repr

/-- Result record of `computeAlignedMetrics`. -/
structure AlignedMetrics where
  wageIndex : ℚ
  alignedReal : ℚ
  baseNominal : ℚ
deriving DecidableEq, Repr

/-- The `state.normalized` record produced by `recomputeAlignment`
(the `AlignedPair` of the specification). -/
structure NormalizedPair where
  baseYear : ℤ
  a : AlignedMetrics
  b : AlignedMetrics
deriving DecidableEq, Repr

/-- Distinct years of a snapshot's wage timeline
(`new Set(snapshot?.wageTimeline?.map(e => e.year) || [])`). -/
def timelineYears (s : Option AlignSnapshot) : List ℤ :=
  match s with
  | none => []
  | some snap => (snap.wageTimeline.map (fun e => e.year)).dedup

/-- The shared years of two snapshots' wage timelines, sorted ascending
(`Array.from(yearsA).filter(y => yearsB.has(y)).sort((a, b) => a - b)`). -/
def sharedYearsSorted (a b : Option AlignSnapshot) : List ℤ :=
  ((timelineYears a).filter (fun y => decide (y ∈ timelineYears b))).insertionSort
    (fun x y => x ≤ y)

/-- The function `findSharedBaseYear` of `country-comparison.js`. -/
def findSharedBaseYear (a b : Option AlignSnapshot) : Option ℤ :=
  match sharedYearsSorted a b with
  | [] => none
  | y :: rest => if 2020 ∈ y :: rest then some 2020 else some y

/-- The function `computeAlignedMetrics` of `country-comparison.js`.
The inflation dataset handed to `calculateRealWage` wraps the snapshot's
`inflationSeries` as a single "Total" category, exactly as the source
does. -/
def computeAlignedMetrics (snapshot : Option AlignSnapshot) (baseYear : ℤ) :
    Option AlignedMetrics :=
  match snapshot with
  | none => none
  | some s =>
    match s.wage with
    | none => none
    | some w =>
      if s.wageTimeline.isEmpty ∨ s.inflationSeries.isEmpty then none
      else
        match s.wageTimeline.find? (fun e => e.year = baseYear) with
        | none => none
        | some baseEntry =>
          match baseEntry.nominal with
          | none => none
          | some baseNominal =>
            match w.nominal, w.year with
            | some nominalLatest, some latestYear =>
              match calculateRealWage nominalLatest
                  ⟨[⟨"Total", s.inflationSeries⟩], []⟩ latestYear baseYear with
              | none => none
              | some realLatest =>
                some ⟨realLatest / baseNominal * 100, realLatest, baseNominal⟩
            | _, _ => none

/-- The function `recomputeAlignment` of `country-comparison.js`, as a
pure function of the two snapshots held in `state.data`. -/
def recomputeAlignment (snapshotA snapshotB : Option AlignSnapshot) :
    Option NormalizedPair :=
  match snapshotA.bind (fun s => s.wage), snapshotB.bind (fun s => s.wage) with
  | some _, some _ =>
    match findSharedBaseYear snapshotA snapshotB with
    | none => none
    | some sharedBaseYear =>
      match computeAlignedMetrics snapshotA sharedBaseYear,
            computeAlignedMetrics snapshotB sharedBaseYear with
      | some alignedA, some alignedB => some ⟨sharedBaseYear, alignedA, alignedB⟩
      | _, _ => none
  | _, _ => none

theorem mem_sharedYearsSorted (a b : Option AlignSnapshot) (y : ℤ) :
    y ∈ sharedYearsSorted a b ↔ y ∈ timelineYears a ∧ y ∈ timelineYears b := by
  unfold sharedYearsSorted
  rw [(List.perm_insertionSort _ _).mem_iff, List.mem_filter]
  simp

/-- C2: the alignment engine returns no aligned pair when the two wage
timelines share no year; when they do share a year, the chosen shared
base year is 2020 if 2020 is shared and otherwise the smallest shared
year. -/
theorem c2_shared_base_year (a b : Option AlignSnapshot) :
    ((∀ y : ℤ, ¬(y ∈ timelineYears a ∧ y ∈ timelineYears b)) →
        recomputeAlignment a b = none)
    ∧ ∀ y0 : ℤ, y0 ∈ timelineYears a → y0 ∈ timelineYears b →
        ∃ m : ℤ, findSharedBaseYear a b = some m
          ∧ m ∈ timelineYears a ∧ m ∈ timelineYears b
          ∧ ((2020 ∈ timelineYears a ∧ 2020 ∈ timelineYears b) → m = 2020)
          ∧ (¬(2020 ∈ timelineYears a ∧ 2020 ∈ timelineYears b) →
              ∀ z : ℤ, z ∈ timelineYears a → z ∈ timelineYears b → m ≤ z) := by
  constructor
  · intro h
    have hs : sharedYearsSorted a b = [] := by
      cases hcase : sharedYearsSorted a b with
      | nil => rfl
      | cons y t =>
        exfalso
        have hy : y ∈ sharedYearsSorted a b := by
          rw [hcase]; exact List.mem_cons_self y t
        exact h y ((mem_sharedYearsSorted a b y).mp hy)
    have hf : findSharedBaseYear a b = none := by
      unfold findSharedBaseYear
      rw [hs]
    unfold recomputeAlignment
    cases a.bind (fun s => s.wage) <;> cases b.bind (fun s => s.wage) <;> simp [hf]
  · intro y0 hya hyb
    have hmem : y0 ∈ sharedYearsSorted a b :=
      (mem_sharedYearsSorted a b y0).mpr ⟨hya, hyb⟩
    cases hcase : sharedYearsSorted a b with
    | nil => rw [hcase] at hmem; cases hmem
    | cons y rest =>
      by_cases h2020 : (2020 : ℤ) ∈ sharedYearsSorted a b
      · refine ⟨2020, ?_, ((mem_sharedYearsSorted a b 2020).mp h2020).1,
          ((mem_sharedYearsSorted a b 2020).mp h2020).2, fun _ => rfl, ?_⟩
        · unfold findSharedBaseYear
          rw [hcase] at h2020 ⊢
          simp [h2020]
        · intro hnot
          exact (hnot ((mem_sharedYearsSorted a b 2020).mp h2020)).elim
      · have hyhead : y ∈ sharedYearsSorted a b := by
          rw [hcase]; exact List.mem_cons_self y rest
        refine ⟨y, ?_, ((mem_sharedYearsSorted a b y).mp hyhead).1,
          ((mem_sharedYearsSorted a b y).mp hyhead).2, ?_, ?_⟩
        · unfold findSharedBaseYear
          rw [hcase]
          rw [hcase] at h2020
          simp [h2020]
        · intro habs
          exact (h2020 ((mem_sharedYearsSorted a b 2020).mpr habs)).elim
        · intro _ z hza hzb
          have hz : z ∈ sharedYearsSorted a b :=
            (mem_sharedYearsSorted a b z).mpr ⟨hza, hzb⟩
          have hsorted : List.Sorted (fun x y => x ≤ y) (sharedYearsSorted a b) :=
            List.sorted_insertionSort _ _
          rw [hcase] at hsorted hz
          rcases List.mem_cons.mp hz with hz1 | hz2
          · exact le_of_eq hz1.symm
          · exact List.rel_of_sorted_cons hsorted z hz2

/-- Snapshot pair whose timelines intersect only at 2015. -/
def snapOnly2015A : Option AlignSnapshot :=
  some ⟨some ⟨some 2015, some 110⟩, [⟨2014, some 100⟩, ⟨2015, some 110⟩], [⟨2015, 1⟩]⟩

/-- Second snapshot of the 2015-only intersection pair. -/
def snapOnly2015B : Option AlignSnapshot :=
  some ⟨some ⟨some 2016, some 220⟩, [⟨2015, some 200⟩, ⟨2016, some 220⟩], [⟨2016, 2⟩]⟩

/-- Snapshot pair with disjoint timelines (2001 vs 2002). -/
def snapDisjointA : Option AlignSnapshot :=
  some ⟨some ⟨some 2001, some 1⟩, [⟨2001, some 1⟩], [⟨2001, 1⟩]⟩

/-- Second snapshot of the disjoint pair. -/
def snapDisjointB : Option AlignSnapshot :=
  some ⟨some ⟨some 2002, some 2⟩, [⟨2002, some 2⟩], [⟨2002, 2⟩]⟩

/-- C2 witness: the disjoint pair yields no alignment; the pair sharing
only 2015 gets shared base year 2015 (not a year nearer to 2020). -/
theorem c2_shared_base_year_witness :
    recomputeAlignment snapDisjointA snapDisjointB = none
    ∧ (∃ m : ℤ, findSharedBaseYear snapOnly2015A snapOnly2015B = some m
        ∧ m ∈ timelineYears snapOnly2015A ∧ m ∈ timelineYears snapOnly2015B
        ∧ ((2020 ∈ timelineYears snapOnly2015A ∧ 2020 ∈ timelineYears snapOnly2015B) →
            m = 2020)
        ∧ (¬(2020 ∈ timelineYears snapOnly2015A ∧ 2020 ∈ timelineYears snapOnly2015B) →
            ∀ z : ℤ, z ∈ timelineYears snapOnly2015A → z ∈ timelineYears snapOnly2015B →
              m ≤ z))
    ∧ findSharedBaseYear snapOnly2015A snapOnly2015B = some 2015 := by
  refine ⟨(c2_shared_base_year snapDisjointA snapDisjointB).1 ?_,
    (c2_shared_base_year snapOnly2015A snapOnly2015B).2 2015 (by decide) (by decide),
    by decide⟩
  intro y hy
  obtain ⟨h1, h2⟩ := hy
  simp [timelineYears, snapDisjointA, snapDisjointB] at h1 h2
  omega

/-- Shallow model of the `wage` field of the snapshot built by
`loadCountryComparisonSnapshot` in `data-loader.js`. -/
structure WageRecord where
  year : ℤ
  nominal : Option ℚ
  real : Option ℚ
  baseYear : ℤ
  baseNominal : Option ℚ
  index : Option ℚ
deriving DecidableEq, Repr

/-- Shallow model of the snapshot object built by
`loadCountryComparisonSnapshot`. -/
structure Snapshot where
  country : String
  displayName : String
  inflation : Option YearValue
  wage : Option WageRecord
deriving DecidableEq, Repr

/-- The decoupled data loads used by `loadCountryComparisonSnapshot`:
`loadInflationByCategories` and `loadMinimumWageData` applied to the
target country name, modelled as pure functions from the requested name
to their result (`none` = the load returned `null`). -/
structure LoadEnv where
  inflationFor : String → Option InflationData
  wageFor : String → Option (List (ℤ × ℚ))

/-- JavaScript numeric-keyed object lookup `wageData[year]`. -/
def lookupYear (m : List (ℤ × ℚ)) (y : ℤ) : Option ℚ :=
  (m.find? (fun e => e.1 = y)).map (fun e => e.2)

/-- The snapshot assembly of `loadCountryComparisonSnapshot` (the body
between the two loads and the cache write). -/
def buildSnapshot (env : LoadEnv) (targetCountry : String) : Snapshot :=
  let inflationData := env.inflationFor targetCountry
  let wageData := env.wageFor targetCountry
  let displayName := (getDisplayCountryName (some targetCountry)).getD targetCountry
  let inflation : Option YearValue :=
    match inflationData with
    | none => none
    | some d =>
      if d.categories.isEmpty then none
      else
        match d.categories.find? (fun c => c.name = "Total") with
        | none => none
        | some totalCategory =>
          if totalCategory.values.isEmpty then none
          else
            match (totalCategory.values.insertionSort (fun u v => u.year ≤ v.year)).getLast? with
            | none => none
            | some latestEntry => some ⟨latestEntry.year, latestEntry.value⟩
  let wage : Option WageRecord :=
    match wageData with
    | none => none
    | some w =>
      if w.isEmpty then none
      else
        let wageYears := ((w.map (fun e => e.1)).dedup).insertionSort (fun x y => x ≤ y)
        match wageYears.getLast? with
        | none => none
        | some latestYear =>
          let nominalValue := lookupYear w latestYear
          let baseYear := if (2012 : ℤ) ∈ wageYears then 2012 else wageYears.headD 0
          let baseNominal := lookupYear w baseYear
          let realValue : Option ℚ :=
            match nominalValue, inflationData with
            | some nv, some d => calculateRealWage nv d latestYear baseYear
            | _, _ => none
          let realIndex : Option ℚ :=
            match realValue, baseNominal with
            | some rv, some bn => if bn = 0 then none else some (rv / bn * 100)
            | _, _ => none
          some ⟨latestYear, nominalValue, realValue, baseYear, baseNominal, realIndex⟩
  ⟨targetCountry, displayName, inflation, wage⟩

/-- The cache key of `loadCountryComparisonSnapshot`:
`const targetCountry = country || "Portugal"` — the raw requested
spelling, with the falsy values (`null`, `undefined`, `""`) replaced by
"Portugal". -/
def snapshotCacheKey (country : Option String) : String :=
  match country with
  | none => "Portugal"
  | some c => if c = "" then "Portugal" else c

/-- The function `loadCountryComparisonSnapshot` of `data-loader.js`, as
a pure state transformer on the module-level `comparisonSnapshotCache`
object (modelled as an association list). -/
def loadCountryComparisonSnapshot (env : LoadEnv) (cache : List (String × Snapshot))
    (country : Option String) : Snapshot × List (String × Snapshot) :=
  match cache.find? (fun e => e.1 = snapshotCacheKey country) with
  | some e => (e.2, cache)
  | none =>
    (buildSnapshot env (snapshotCacheKey country),
      cache ++ [(snapshotCacheKey country, buildSnapshot env (snapshotCacheKey country))])

theorem find?_append_some {α : Type} {p : α → Bool} {l l' : List α} {a : α}
    (h : l.find? p = some a) : (l ++ l').find? p = some a := by
  rw [List.find?_append, h]
  rfl

theorem find?_append_none {α : Type} {p : α → Bool} {l l' : List α}
    (h : l.find? p = none) : (l ++ l').find? p = l'.find? p := by
  rw [List.find?_append, h]
  rfl

/-- C3 (amended): `loadCountryComparisonSnapshot` is idempotent and
cached per raw requested country name (falsy names replaced by
"Portugal"): a second request for the same name returns the snapshot
stored by the first and leaves the cache unchanged, and existing cache
entries are retained for the process lifetime.  The cache key is NOT the
resolved canonical name, so different spellings of one country use
distinct entries (see the counterexample). -/
theorem c3_cache_per_request_key (env : LoadEnv) (cache : List (String × Snapshot))
    (country : Option String) (s : Snapshot) (cache' : List (String × Snapshot))
    (h : loadCountryComparisonSnapshot env cache country = (s, cache')) :
    loadCountryComparisonSnapshot env cache' country = (s, cache')
    ∧ ∀ (k : String) (e : String × Snapshot),
        cache.find? (fun x => x.1 = k) = some e →
        cache'.find? (fun x => x.1 = k) = some e := by
  unfold loadCountryComparisonSnapshot at h ⊢
  cases hf : cache.find? (fun e => e.1 = snapshotCacheKey country) with
  | some e =>
    simp only [hf] at h
    obtain ⟨hs, hc⟩ := Prod.mk.injEq .. ▸ h
    subst hc
    subst hs
    refine ⟨?_, fun k e' hk => hk⟩
    simp only [hf]
  | none =>
    simp only [hf] at h
    obtain ⟨hs, hc⟩ := Prod.mk.injEq .. ▸ h
    subst hc
    subst hs
    have hcache' : (cache ++ [(snapshotCacheKey country,
        buildSnapshot env (snapshotCacheKey country))]).find?
          (fun e => e.1 = snapshotCacheKey country)
        = some (snapshotCacheKey country, buildSnapshot env (snapshotCacheKey country)) := by
      rw [find?_append_none hf]
      simp
    constructor
    · simp only [hcache']
    · exact fun k e' hk => find?_append_some hk

/-- Environment in which both data loads fail (return `null`); the
snapshot then records only the requested name and its display form. -/
def emptyLoadEnv : LoadEnv := ⟨fun _ => none, fun _ => none⟩

/-- C3 counterexample: "Spain" and "Espanha" resolve to the same
canonical country, but after a request for "Spain" the cache has no
entry under "Espanha", and a subsequent request for "Espanha" computes a
different snapshot (its `country` field differs) instead of hitting the
entry created for "Spain". -/
theorem c3_cache_counterexample :
    ((loadCountryComparisonSnapshot emptyLoadEnv [] (some "Spain")).2).find?
        (fun e => e.1 = "Espanha") = none
    ∧ (loadCountryComparisonSnapshot emptyLoadEnv
          ((loadCountryComparisonSnapshot emptyLoadEnv [] (some "Spain")).2)
          (some "Espanha")).1.country
        ≠ ((loadCountryComparisonSnapshot emptyLoadEnv [] (some "Spain")).1).country
    ∧ getPordataCountryName (some "Spain") = getPordataCountryName (some "Espanha") := by
  refine ⟨by decide, by decide, by decide⟩

/-- C3 witness: a request for "Portugal" on an empty cache creates the
entry, and a second request returns the stored snapshot unchanged. -/
theorem c3_cache_per_request_key_witness :
    loadCountryComparisonSnapshot emptyLoadEnv [] (some "Portugal")
      = (buildSnapshot emptyLoadEnv "Portugal",
          [("Portugal", buildSnapshot emptyLoadEnv "Portugal")])
    ∧ loadCountryComparisonSnapshot emptyLoadEnv
        [("Portugal", buildSnapshot emptyLoadEnv "Portugal")] (some "Portugal")
      = (buildSnapshot emptyLoadEnv "Portugal",
          [("Portugal", buildSnapshot emptyLoadEnv "Portugal")]) := by
  have h : loadCountryComparisonSnapshot emptyLoadEnv [] (some "Portugal")
      = (buildSnapshot emptyLoadEnv "Portugal",
          [("Portugal", buildSnapshot emptyLoadEnv "Portugal")]) := by rfl
  exact ⟨h, (c3_cache_per_request_key emptyLoadEnv [] (some "Portugal") _ _ h).1⟩

/-- Strict-equality country match `name === target` against a possibly
`null` target (in JavaScript, `x === null` is false for every string). -/
def matchesTarget (target : Option String) (name : String) : Bool :=
  match target with
  | some t => name = t
  | none => false

/-- Shallow model of one raw row of `40-mais-pobres.csv` as read by
`loadIncomeAndInflationData` (`valor` is the parse result of
"09. Valor"; the sentinel `'x'` and unparseable cells are `none`). -/
structure IncomeRow where
  ano : Option ℤ
  countryName : String
  valor : Option ℚ
deriving DecidableEq, Repr

/-- Shallow model of one element of `combinedData` in
`loadIncomeAndInflationData`. -/
structure CombinedRow where
  year : ℤ
  incomeShare : ℚ
  inflationRate : ℚ
  inflationVariation : Option ℚ
  incomeVariation : Option ℚ
deriving DecidableEq, Repr

/-- The `countryIncomeData` array of `loadIncomeAndInflationData`: the
validated rows of the requested country (`year` truthy, value parsed),
sorted ascending by year. -/
def incomeSeries (rows : List IncomeRow) (country : Option String) : List YearValue :=
  (rows.filterMap (fun r =>
    match r.ano, r.valor with
    | some y, some v =>
      if matchesTarget (getPordataCountryName country) r.countryName ∧ y ≠ 0
      then some (YearValue.mk y v) else none
    | _, _ => none)).insertionSort (fun u v => u.year ≤ v.year)

/-- One iteration of the combining loop of `loadIncomeAndInflationData`:
`prev` is `countryIncomeData[i-1]` (`none` at `i = 0`), `cur` is
`countryIncomeData[i]`; the row is pushed only if the current year has
an observed "Total" inflation rate. -/
def combineRow (tvals : List YearValue) (prev : Option YearValue) (cur : YearValue) :
    Option CombinedRow :=
  match tvals.find? (fun v => v.year = cur.year) with
  | none => none
  | some r =>
    some ⟨cur.year, cur.value, r.value,
      match tvals.find? (fun v => v.year = cur.year - 1) with
      | some p => some (r.value - p.value)
      | none => none,
      match prev with
      | some p => if p.year = cur.year - 1 then some (cur.value - p.value) else none
      | none => none⟩

/-- The combining loop of `loadIncomeAndInflationData` over the whole
income series (the `combineVariations` operation of the specification). -/
def combineVariations (tvals : List YearValue) :
    Option YearValue → List YearValue → List CombinedRow
  | _, [] => []
  | prev, cur :: rest =>
    match combineRow tvals prev cur with
    | some row => row :: combineVariations tvals (some cur) rest
    | none => combineVariations tvals (some cur) rest

/-- Result record of `loadIncomeAndInflationData`. -/
structure IncomeInflationResult where
  data : List CombinedRow
  years : List ℤ
  country : Option String
deriving DecidableEq, Repr

/-- The pure core of `loadIncomeAndInflationData` of `data-loader.js`
(the part after the two CSV loads). -/
def loadIncomeAndInflationData (incomeRows : List IncomeRow) (inflationData : InflationData)
    (country : Option String) : Option IncomeInflationResult :=
  let targetCountry := getPordataCountryName country
  let countryIncomeData := incomeSeries incomeRows country
  match inflationData.categories.find? (fun c => c.name = "Total") with
  | none => none
  | some totalInflation =>
    some ⟨combineVariations totalInflation.values none countryIncomeData,
      ((countryIncomeData.map (fun e => e.year)).dedup).insertionSort (fun x y => x ≤ y),
      match targetCountry with
      | some t => if t = "" then country else some t
      | none => country⟩

theorem combineRow_some (tvals : List YearValue) (prev : Option YearValue)
    (cur : YearValue) (row : CombinedRow) (h : combineRow tvals prev cur = some row) :
    row.year = cur.year
    ∧ (∀ d, row.inflationVariation = some d →
        ∃ r p, tvals.find? (fun v => v.year = cur.year) = some r
          ∧ tvals.find? (fun v => v.year = cur.year - 1) = some p
          ∧ d = r.value - p.value)
    ∧ (∀ d, row.incomeVariation = some d →
        ∃ p, prev = some p ∧ p.year = cur.year - 1 ∧ d = cur.value - p.value) := by
  unfold combineRow at h
  cases hr : tvals.find? (fun v => v.year = cur.year) with
  | none =>
    rw [hr] at h
    exact Option.noConfusion h
  | some r =>
    rw [hr] at h
    have h' := Option.some.inj h
    subst h'
    refine ⟨rfl, ?_, ?_⟩
    · intro d hd
      simp only at hd
      cases hp : tvals.find? (fun v => v.year = cur.year - 1) with
      | none =>
        rw [hp] at hd
        exact Option.noConfusion hd
      | some p =>
        rw [hp] at hd
        exact ⟨r, p, rfl, rfl, (Option.some.inj hd).symm⟩
    · intro d hd
      simp only at hd
      cases prev with
      | none => simp at hd
      | some p =>
        simp only at hd
        by_cases hpy : p.year = cur.year - 1
        · rw [if_pos hpy] at hd
          exact ⟨p, rfl, hpy, (Option.some.inj hd).symm⟩
        · rw [if_neg hpy] at hd
          simp at hd

theorem combineVariations_mem (tvals : List YearValue) (l : List YearValue) :
    ∀ (prev : Option YearValue) (row : CombinedRow),
      row ∈ combineVariations tvals prev l →
      (∀ d, row.inflationVariation = some d →
        ∃ r p, tvals.find? (fun v => v.year = row.year) = some r
          ∧ tvals.find? (fun v => v.year = row.year - 1) = some p
          ∧ d = r.value - p.value)
      ∧ (∀ d, row.incomeVariation = some d →
          ∃ pe ce, [pe, ce] <:+: (prev.toList ++ l)
            ∧ ce.year = row.year ∧ pe.year = row.year - 1
            ∧ d = ce.value - pe.value) := by
  induction l with
  | nil =>
    intro prev row h
    simp [combineVariations] at h
  | cons cur rest ih =>
    intro prev row h
    rw [combineVariations] at h
    cases hcr : combineRow tvals prev cur with
    | none =>
      rw [hcr] at h
      obtain ⟨hinf, hinc⟩ := ih (some cur) row h
      refine ⟨hinf, ?_⟩
      intro d hd
      obtain ⟨pe, ce, hsub, h1, h2, h3⟩ := hinc d hd
      refine ⟨pe, ce, hsub.trans ?_, h1, h2, h3⟩
      exact (List.suffix_append prev.toList (cur :: rest)).isInfix
    | some row' =>
      rw [hcr] at h
      rcases List.mem_cons.mp h with h1 | h2
      · subst h1
        obtain ⟨hyear, hinfl, hincome⟩ := combineRow_some tvals prev cur row hcr
        constructor
        · intro d hd
          obtain ⟨r, p, hr, hp, hd'⟩ := hinfl d hd
          rw [hyear]
          exact ⟨r, p, hr, hp, hd'⟩
        · intro d hd
          obtain ⟨p, hprev, hpy, hd'⟩ := hincome d hd
          subst hprev
          refine ⟨p, cur, ⟨[], rest, rfl⟩, hyear.symm, ?_, hd'⟩
          rw [hyear]
          exact hpy
      · obtain ⟨hinf, hinc⟩ := ih (some cur) row h2
        refine ⟨hinf, ?_⟩
        intro d hd
        obtain ⟨pe, ce, hsub, hy1, hy2, hy3⟩ := hinc d hd
        refine ⟨pe, ce, hsub.trans ?_, hy1, hy2, hy3⟩
        exact (List.suffix_append prev.toList (cur :: rest)).isInfix

/-- C6: no output row of the variation combiner carries a variation
computed against a non-adjacent prior year: `inflationVariation` is
non-null only when the "Total" series has observed values at both the
row's year and the year before (and then equals their difference), and
`incomeVariation` is non-null only when the income series' immediately
preceding entry sits at exactly the previous year. -/
theorem c6_variation_adjacency (incomeRows : List IncomeRow) (inflationData : InflationData)
    (country : Option String) (res : IncomeInflationResult)
    (h : loadIncomeAndInflationData incomeRows inflationData country = some res)
    (row : CombinedRow) (hrow : row ∈ res.data) :
    (∀ d, row.inflationVariation = some d →
      ∃ t r p, inflationData.categories.find? (fun c => c.name = "Total") = some t
        ∧ t.values.find? (fun v => v.year = row.year) = some r
        ∧ t.values.find? (fun v => v.year = row.year - 1) = some p
        ∧ d = r.value - p.value)
    ∧ (∀ d, row.incomeVariation = some d →
        ∃ pe ce, [pe, ce] <:+: incomeSeries incomeRows country
          ∧ ce.year = row.year ∧ pe.year = row.year - 1
          ∧ d = ce.value - pe.value) := by
  unfold loadIncomeAndInflationData at h
  cases ht : inflationData.categories.find? (fun c => c.name = "Total") with
  | none =>
    rw [ht] at h
    exact Option.noConfusion h
  | some t =>
    rw [ht] at h
    have hres := Option.some.inj h
    have hdata : res.data = combineVariations t.values none (incomeSeries incomeRows country) := by
      rw [← hres]
    rw [hdata] at hrow
    obtain ⟨hinf, hinc⟩ :=
      combineVariations_mem t.values (incomeSeries incomeRows country) none row hrow
    constructor
    · intro d hd
      obtain ⟨r, p, h1, h2, h3⟩ := hinf d hd
      exact ⟨t, r, p, rfl, h1, h2, h3⟩
    · intro d hd
      obtain ⟨pe, ce, hsub, h1, h2, h3⟩ := hinc d hd
      exact ⟨pe, ce, by simpa using hsub, h1, h2, h3⟩

/-- C6 witness: a single income observation for Portugal in 2014 with an
inflation observation at 2014 but not 2013 combines into one row with
both variations absent. -/
theorem c6_variation_adjacency_witness :
    loadIncomeAndInflationData [⟨some 2014, "Portugal", some 10⟩]
        ⟨[⟨"Total", [⟨2014, 2⟩]⟩], [2014]⟩ (some "Portugal")
      = some ⟨[⟨2014, 10, 2, none, none⟩], [2014], some "Portugal"⟩
    ∧ ((∀ d, (⟨2014, 10, 2, none, none⟩ : CombinedRow).inflationVariation = some d →
        ∃ t r p, (⟨[⟨"Total", [⟨2014, 2⟩]⟩], [2014]⟩ : InflationData).categories.find?
            (fun c => c.name = "Total") = some t
          ∧ t.values.find? (fun v => v.year = (⟨2014, 10, 2, none, none⟩ : CombinedRow).year) = some r
          ∧ t.values.find? (fun v => v.year = (⟨2014, 10, 2, none, none⟩ : CombinedRow).year - 1) = some p
          ∧ d = r.value - p.value)
      ∧ (∀ d, (⟨2014, 10, 2, none, none⟩ : CombinedRow).incomeVariation = some d →
          ∃ pe ce, [pe, ce] <:+: incomeSeries [⟨some 2014, "Portugal", some 10⟩] (some "Portugal")
            ∧ ce.year = (⟨2014, 10, 2, none, none⟩ : CombinedRow).year
            ∧ pe.year = (⟨2014, 10, 2, none, none⟩ : CombinedRow).year - 1
            ∧ d = ce.value - pe.value)) :=
  ⟨by decide,
    c6_variation_adjacency [⟨some 2014, "Portugal", some 10⟩]
      ⟨[⟨"Total", [⟨2014, 2⟩]⟩], [2014]⟩ (some "Portugal")
      ⟨[⟨2014, 10, 2, none, none⟩], [2014], some "Portugal"⟩
      (by decide) ⟨2014, 10, 2, none, none⟩ (by decide)⟩

/-- Shallow model of one row of `salario_minimo_europa.csv` as read by
`loadMinimumWageData`: `timeYear` is `parseInt(TIME_PERIOD.split("-")[0])`
and `obsValue` is `parseFloat(OBS_VALUE)` (`none` = empty cell or `NaN`). -/
structure EuroWageRow where
  geo : String
  timeYear : Option ℤ
  obsValue : Option ℚ
deriving DecidableEq, Repr

/-- Shallow model of one row of `salario-minimo-nacional.csv` as read by
the Portugal branch of `loadMinimumWageData` (`valor` is the parse of
"09. Valor" after comma replacement; the sentinels `'x'`, `'-'`, `'-,'`
and unparseable cells are `none`). -/
structure PTWageRow where
  indicador : String
  ano : Option ℤ
  valor : Option ℚ
deriving DecidableEq, Repr

/-- JavaScript object assignment `m[y] = v` on a year-keyed object
modelled as an association list: replace the entry if present, append
otherwise. -/
def assocUpdate : List (ℤ × ℚ) → ℤ → ℚ → List (ℤ × ℚ)
  | [], y, v => [(y, v)]
  | e :: rest, y, v => if e.1 = y then (y, v) :: rest else e :: assocUpdate rest y v

/-- The conditional assignment of the Eurostat branch of
`loadMinimumWageData`: `if (!wageData[year] || wageData[year] < value)
wageData[year] = value` (note that a stored value of `0` is falsy). -/
def wageUpsert (m : List (ℤ × ℚ)) (y : ℤ) (v : ℚ) : List (ℤ × ℚ) :=
  match lookupYear m y with
  | none => assocUpdate m y v
  | some s => if s = 0 ∨ s < v then assocUpdate m y v else m

/-- One iteration of the Eurostat `forEach` of `loadMinimumWageData`. -/
def euroStep (ec : Option String) (m : List (ℤ × ℚ)) (r : EuroWageRow) : List (ℤ × ℚ) :=
  if matchesTarget ec r.geo then
    match r.timeYear, r.obsValue with
    | some y, some v => wageUpsert m y v
    | _, _ => m
  else m

/-- The wage mapping built by the Eurostat branch of
`loadMinimumWageData` for a (possibly unresolvable) Eurostat country
name. -/
def buildEurostatWageData (rows : List EuroWageRow) (eurostatCountry : Option String) :
    List (ℤ × ℚ) :=
  rows.foldl (euroStep eurostatCountry) []

/-- JavaScript `indicator.includes("Portugal continental")`. -/
def containsSubstr (needle hay : String) : Bool :=
  decide (needle.toList <:+: hay.toList)

/-- The wage mapping built by the Portugal branch of
`loadMinimumWageData` (`!year` also rejects the falsy year `0`). -/
def buildPortugalWageData (rows : List PTWageRow) : List (ℤ × ℚ) :=
  rows.foldl (fun m r =>
    if containsSubstr "Portugal continental" r.indicador then
      match r.ano, r.valor with
      | some y, some v => if y = 0 then m else assocUpdate m y v
      | _, _ => m
    else m) []

/-- The function `loadMinimumWageData` of `data-loader.js`, as a pure
function of the two CSV row sets. -/
def loadMinimumWageData (country : Option String) (nationalRows : List PTWageRow)
    (eurostatRows : List EuroWageRow) : List (ℤ × ℚ) :=
  if getPordataCountryName country = some "Portugal" then
    buildPortugalWageData nationalRows
  else
    buildEurostatWageData eurostatRows (getEurostatCountryName country)

/-- The observation values of the Eurostat rows that match the requested
country and fall in year `y`, in row order. -/
def observedValues (rows : List EuroWageRow) (eurostatCountry : Option String) (y : ℤ) :
    List ℚ :=
  rows.filterMap (fun r =>
    match r.timeYear, r.obsValue with
    | some y', some v =>
      if matchesTarget eurostatCountry r.geo ∧ y' = y then some v else none
    | _, _ => none)

/-- Maximum accumulator over an optional running value. -/
def accMax (o : Option ℚ) (v : ℚ) : Option ℚ :=
  match o with
  | none => some v
  | some s => some (max s v)

/-- Maximum of a list of rationals (`none` on the empty list). -/
def listMax (l : List ℚ) : Option ℚ :=
  l.foldl accMax none

theorem lookupYear_cons (e : ℤ × ℚ) (m : List (ℤ × ℚ)) (z : ℤ) :
    lookupYear (e :: m) z = if e.1 = z then some e.2 else lookupYear m z := by
  by_cases h : e.1 = z
  · rw [if_pos h]
    unfold lookupYear
    rw [List.find?_cons_of_pos _ (by simp [h])]
    rfl
  · rw [if_neg h]
    unfold lookupYear
    rw [List.find?_cons_of_neg _ (by simp [h])]

theorem lookupYear_assocUpdate_self (m : List (ℤ × ℚ)) (y : ℤ) (v : ℚ) :
    lookupYear (assocUpdate m y v) y = some v := by
  induction m with
  | nil =>
    unfold assocUpdate
    rw [lookupYear_cons]
    simp
  | cons e rest ih =>
    unfold assocUpdate
    by_cases h : e.1 = y
    · rw [if_pos h, lookupYear_cons]
      simp
    · rw [if_neg h, lookupYear_cons, if_neg h]
      exact ih

theorem lookupYear_assocUpdate_ne (m : List (ℤ × ℚ)) (y : ℤ) (v : ℚ) (z : ℤ)
    (h : z ≠ y) : lookupYear (assocUpdate m y v) z = lookupYear m z := by
  induction m with
  | nil =>
    unfold assocUpdate
    rw [lookupYear_cons, if_neg (fun hh => h hh.symm)]
  | cons e rest ih =>
    unfold assocUpdate
    by_cases he : e.1 = y
    · rw [if_pos he, lookupYear_cons, lookupYear_cons, if_neg (fun hh => h hh.symm),
        if_neg (fun hh => h (he ▸ hh).symm)]
    · rw [if_neg he, lookupYear_cons, lookupYear_cons, ih]

theorem wageUpsert_eq_none (m : List (ℤ × ℚ)) (y : ℤ) (v : ℚ)
    (hm : lookupYear m y = none) : wageUpsert m y v = assocUpdate m y v := by
  unfold wageUpsert
  rw [hm]

theorem wageUpsert_eq_some (m : List (ℤ × ℚ)) (y : ℤ) (v : ℚ) (s : ℚ)
    (hm : lookupYear m y = some s) :
    wageUpsert m y v = if s = 0 ∨ s < v then assocUpdate m y v else m := by
  unfold wageUpsert
  rw [hm]

theorem lookupYear_wageUpsert_self (m : List (ℤ × ℚ)) (y : ℤ) (v : ℚ)
    (h2 : ∀ s, lookupYear m y = some s → s ≠ 0) :
    lookupYear (wageUpsert m y v) y = accMax (lookupYear m y) v := by
  cases hm : lookupYear m y with
  | none =>
    rw [wageUpsert_eq_none m y v hm, lookupYear_assocUpdate_self]
    rfl
  | some s =>
    have hs := h2 s hm
    rw [wageUpsert_eq_some m y v s hm]
    by_cases hlt : s < v
    · rw [if_pos (Or.inr hlt), lookupYear_assocUpdate_self]
      simp [accMax, max_eq_right (le_of_lt hlt)]
    · rw [if_neg (by push_neg; exact ⟨hs, le_of_not_lt hlt⟩), hm]
      simp [accMax, max_eq_left (le_of_not_lt hlt)]

theorem lookupYear_wageUpsert_ne (m : List (ℤ × ℚ)) (y : ℤ) (v : ℚ) (z : ℤ)
    (h : z ≠ y) : lookupYear (wageUpsert m y v) z = lookupYear m z := by
  cases hm : lookupYear m y with
  | none =>
    rw [wageUpsert_eq_none m y v hm]
    exact lookupYear_assocUpdate_ne m y v z h
  | some s =>
    rw [wageUpsert_eq_some m y v s hm]
    by_cases hc : s = 0 ∨ s < v
    · rw [if_pos hc]
      exact lookupYear_assocUpdate_ne m y v z h
    · rw [if_neg hc]

theorem keys_assocUpdate (m : List (ℤ × ℚ)) (y : ℤ) (v : ℚ) :
    (assocUpdate m y v).map (fun e => e.1)
      = if y ∈ m.map (fun e => e.1) then m.map (fun e => e.1)
        else m.map (fun e => e.1) ++ [y] := by
  induction m with
  | nil => simp [assocUpdate]
  | cons e rest ih =>
    unfold assocUpdate
    by_cases h : e.1 = y
    · rw [if_pos h]
      simp [h]
    · rw [if_neg h]
      simp only [List.map_cons, ih]
      by_cases hmem : y ∈ rest.map (fun e => e.1)
      · rw [if_pos hmem, if_pos (by simp [hmem])]
      · rw [if_neg hmem, if_neg ?hno]
        · simp
        · intro hcon
          rcases List.mem_cons.mp hcon with h1 | h1
          · exact h h1.symm
          · exact hmem h1

theorem nodup_keys_assocUpdate (m : List (ℤ × ℚ)) (y : ℤ) (v : ℚ)
    (h : (m.map (fun e => e.1)).Nodup) :
    ((assocUpdate m y v).map (fun e => e.1)).Nodup := by
  rw [keys_assocUpdate]
  by_cases hmem : y ∈ m.map (fun e => e.1)
  · rw [if_pos hmem]
    exact h
  · rw [if_neg hmem]
    simp [List.nodup_append, h, hmem]

theorem nodup_keys_wageUpsert (m : List (ℤ × ℚ)) (y : ℤ) (v : ℚ)
    (h : (m.map (fun e => e.1)).Nodup) :
    ((wageUpsert m y v).map (fun e => e.1)).Nodup := by
  cases hm : lookupYear m y with
  | none =>
    rw [wageUpsert_eq_none m y v hm]
    exact nodup_keys_assocUpdate m y v h
  | some s =>
    rw [wageUpsert_eq_some m y v s hm]
    by_cases hc : s = 0 ∨ s < v
    · rw [if_pos hc]
      exact nodup_keys_assocUpdate m y v h
    · rw [if_neg hc]
      exact h

theorem nodup_keys_euro_fold (ec : Option String) (rows : List EuroWageRow) :
    ∀ m : List (ℤ × ℚ), (m.map (fun e => e.1)).Nodup →
      ((rows.foldl (euroStep ec) m).map (fun e => e.1)).Nodup := by
  induction rows with
  | nil => intro m hm; exact hm
  | cons r rest ih =>
    intro m hm
    rw [List.foldl_cons]
    apply ih
    cases hty : r.timeYear with
    | none => simpa [euroStep, hty] using hm
    | some yy =>
      cases hov : r.obsValue with
      | none => simpa [euroStep, hty, hov] using hm
      | some vv =>
        by_cases hgeo : matchesTarget ec r.geo
        · simp only [euroStep, hty, hov, hgeo, if_true]
          exact nodup_keys_wageUpsert m yy vv hm
        · simpa [euroStep, hgeo] using hm

theorem foldl_accMax_some (vs : List ℚ) (s : ℚ) :
    vs.foldl accMax (some s) = some (vs.foldl max s) := by
  induction vs generalizing s with
  | nil => rfl
  | cons v vs ih => simp [List.foldl_cons, accMax, ih]

theorem foldl_max_le (vs : List ℚ) (s : ℚ) :
    s ≤ vs.foldl max s ∧ ∀ w ∈ vs, w ≤ vs.foldl max s := by
  induction vs generalizing s with
  | nil => exact ⟨le_refl s, by simp⟩
  | cons v vs ih =>
    obtain ⟨h1, h2⟩ := ih (max s v)
    rw [List.foldl_cons]
    refine ⟨le_trans (le_max_left s v) h1, ?_⟩
    intro w hw
    rcases List.mem_cons.mp hw with h' | hw'
    · subst h'
      exact le_trans (le_max_right s w) h1
    · exact h2 w hw'

theorem foldl_max_mem (vs : List ℚ) (s : ℚ) :
    vs.foldl max s = s ∨ vs.foldl max s ∈ vs := by
  induction vs generalizing s with
  | nil => exact Or.inl rfl
  | cons v vs ih =>
    rcases ih (max s v) with h | h
    · rcases max_choice s v with h' | h'
      · exact Or.inl (by rw [List.foldl_cons, h, h'])
      · exact Or.inr (by rw [List.foldl_cons, h, h']; exact List.mem_cons_self v vs)
    · exact Or.inr (by rw [List.foldl_cons]; exact List.mem_cons_of_mem v h)

theorem listMax_spec (l : List ℚ) (mx : ℚ) (h : listMax l = some mx) :
    mx ∈ l ∧ ∀ w ∈ l, w ≤ mx := by
  cases l with
  | nil => exact Option.noConfusion h
  | cons v vs =>
    unfold listMax at h
    rw [List.foldl_cons, show accMax none v = some v from rfl, foldl_accMax_some] at h
    have hmx := Option.some.inj h
    subst hmx
    constructor
    · rcases foldl_max_mem vs v with h1 | h1
      · rw [h1]
        exact List.mem_cons_self v vs
      · exact List.mem_cons_of_mem v h1
    · intro w hw
      obtain ⟨ha, hb⟩ := foldl_max_le vs v
      rcases List.mem_cons.mp hw with h' | hw'
      · exact h' ▸ ha
      · exact hb w hw'

theorem euro_fold_lookup (ec : Option String) (y : ℤ) (rows : List EuroWageRow) :
    ∀ m : List (ℤ × ℚ),
      (∀ w ∈ observedValues rows ec y, w ≠ 0) →
      (∀ s, lookupYear m y = some s → s ≠ 0) →
      lookupYear (rows.foldl (euroStep ec) m) y
        = (observedValues rows ec y).foldl accMax (lookupYear m y) := by
  induction rows with
  | nil =>
    intro m _ _
    simp [observedValues]
  | cons r rest ih =>
    intro m h1 h2
    rw [List.foldl_cons]
    cases hty : r.timeYear with
    | none =>
      have hstep : euroStep ec m r = m := by
        simp [euroStep, hty]
      have hobs : observedValues (r :: rest) ec y = observedValues rest ec y := by
        simp [observedValues, List.filterMap_cons, hty]
      rw [hstep, hobs]
      rw [hobs] at h1
      exact ih m h1 h2
    | some yy =>
      cases hov : r.obsValue with
      | none =>
        have hstep : euroStep ec m r = m := by
          simp [euroStep, hty, hov]
        have hobs : observedValues (r :: rest) ec y = observedValues rest ec y := by
          simp [observedValues, List.filterMap_cons, hty, hov]
        rw [hstep, hobs]
        rw [hobs] at h1
        exact ih m h1 h2
      | some vv =>
        by_cases hgeo : matchesTarget ec r.geo
        · by_cases hyy : yy = y
          · subst hyy
            have hstep : euroStep ec m r = wageUpsert m yy vv := by
              simp [euroStep, hty, hov, hgeo]
            have hobs : observedValues (r :: rest) ec yy = vv :: observedValues rest ec yy := by
              simp [observedValues, List.filterMap_cons, hty, hov, hgeo]
            have hv0 : vv ≠ 0 := by
              apply h1
              rw [hobs]
              exact List.mem_cons_self vv _
            have h1' : ∀ w ∈ observedValues rest ec yy, w ≠ 0 := by
              intro w hw
              apply h1
              rw [hobs]
              exact List.mem_cons_of_mem vv hw
            have hupd := lookupYear_wageUpsert_self m yy vv h2
            have h2' : ∀ s, lookupYear (wageUpsert m yy vv) yy = some s → s ≠ 0 := by
              rw [hupd]
              cases hm : lookupYear m yy with
              | none =>
                intro s hs
                simp only [accMax] at hs
                rw [← Option.some.inj hs]
                exact hv0
              | some t =>
                intro s hs
                simp only [accMax] at hs
                rw [← Option.some.inj hs]
                rcases max_choice t vv with hc | hc
                · rw [hc]
                  exact h2 t hm
                · rw [hc]
                  exact hv0
            rw [hstep, hobs, List.foldl_cons, ← hupd]
            exact ih (wageUpsert m yy vv) h1' h2'
          · have hstep : euroStep ec m r = wageUpsert m yy vv := by
              simp [euroStep, hty, hov, hgeo]
            have hobs : observedValues (r :: rest) ec y = observedValues rest ec y := by
              simp [observedValues, List.filterMap_cons, hty, hov, hyy]
            have hlk : lookupYear (wageUpsert m yy vv) y = lookupYear m y :=
              lookupYear_wageUpsert_ne m yy vv y (fun hh => hyy hh.symm)
            have h2' : ∀ s, lookupYear (wageUpsert m yy vv) y = some s → s ≠ 0 := by
              rw [hlk]
              exact h2
            rw [hstep, hobs]
            rw [hobs] at h1
            have hres := ih (wageUpsert m yy vv) h1 h2'
            rw [hlk] at hres
            exact hres
        · have hstep : euroStep ec m r = m := by
            simp [euroStep, hgeo]
          have hobs : observedValues (r :: rest) ec y = observedValues rest ec y := by
            simp [observedValues, List.filterMap_cons, hty, hov, hgeo]
          rw [hstep, hobs]
          rw [hobs] at h1
          exact ih m h1 h2

/-- C10 (amended): for a country other than Portugal, the wage series
built from the Eurostat rows keeps exactly one entry per year (the year
keys are pairwise distinct), and when none of the year's parsed
observations is exactly 0 that entry equals their maximum.  (A stored 0
is falsy in the source's `!wageData[year]` guard and is overwritten by
any later observation, even a smaller one — see the counterexample.) -/
theorem c10_eurostat_year_max (country : Option String) (nationalRows : List PTWageRow)
    (eurostatRows : List EuroWageRow) (y : ℤ)
    (hpt : getPordataCountryName country ≠ some "Portugal")
    (hnz : ∀ w ∈ observedValues eurostatRows (getEurostatCountryName country) y, w ≠ 0) :
    lookupYear (loadMinimumWageData country nationalRows eurostatRows) y
      = listMax (observedValues eurostatRows (getEurostatCountryName country) y)
    ∧ (∀ mx, listMax (observedValues eurostatRows (getEurostatCountryName country) y) = some mx →
        mx ∈ observedValues eurostatRows (getEurostatCountryName country) y
          ∧ ∀ w ∈ observedValues eurostatRows (getEurostatCountryName country) y, w ≤ mx)
    ∧ ((loadMinimumWageData country nationalRows eurostatRows).map (fun e => e.1)).Nodup := by
  have hload : loadMinimumWageData country nationalRows eurostatRows
      = buildEurostatWageData eurostatRows (getEurostatCountryName country) := by
    simp [loadMinimumWageData, hpt]
  refine ⟨?_, fun mx hmx => listMax_spec _ mx hmx, ?_⟩
  · rw [hload]
    unfold buildEurostatWageData
    have hres := euro_fold_lookup (getEurostatCountryName country) y eurostatRows [] hnz
      (by intro s hs; exact Option.noConfusion hs)
    simpa [listMax, lookupYear] using hres
  · rw [hload]
    unfold buildEurostatWageData
    exact nodup_keys_euro_fold _ _ [] (by simp)

/-- Two same-year Eurostat observations (semesters) for Spain, both
positive. -/
def euroRowsPos : List EuroWageRow :=
  [⟨"Spain", some 2015, some 5⟩, ⟨"Spain", some 2015, some 3⟩]

/-- C10 witness: with observations 5 and 3 in 2015 the series keeps the
maximum, 5. -/
theorem c10_eurostat_year_max_witness :
    getPordataCountryName (some "Espanha") ≠ some "Portugal"
    ∧ (∀ w ∈ observedValues euroRowsPos (getEurostatCountryName (some "Espanha")) 2015, w ≠ 0)
    ∧ lookupYear (loadMinimumWageData (some "Espanha") [] euroRowsPos) 2015
        = listMax (observedValues euroRowsPos (getEurostatCountryName (some "Espanha")) 2015)
    ∧ lookupYear (loadMinimumWageData (some "Espanha") [] euroRowsPos) 2015 = some 5 :=
  ⟨by decide, by decide,
    (c10_eurostat_year_max (some "Espanha") [] euroRowsPos 2015 (by decide) (by decide)).1,
    by decide⟩

/-- Two same-year Eurostat observations for Spain where the first parses
to exactly 0. -/
def euroRowsZero : List EuroWageRow :=
  [⟨"Spain", some 2015, some 0⟩, ⟨"Spain", some 2015, some (-5)⟩]

/-- C10 counterexample: with observations 0 and −5 in 2015 the stored 0
is falsy, so the later smaller observation −5 overwrites it; the kept
entry is −5, not the maximum 0. -/
theorem c10_eurostat_year_max_counterexample :
    lookupYear (loadMinimumWageData (some "Espanha") [] euroRowsZero) 2015 = some (-5)
    ∧ listMax (observedValues euroRowsZero (getEurostatCountryName (some "Espanha")) 2015)
        = some 0
    ∧ lookupYear (loadMinimumWageData (some "Espanha") [] euroRowsZero) 2015
        ≠ listMax (observedValues euroRowsZero (getEurostatCountryName (some "Espanha")) 2015) :=
  ⟨by decide, by decide, by decide⟩

end PL
